import Mathlib

/-!
Verification development for the etude-senegal backend.

This file gives a shallow embedding of the two core subsystems of the
repository and proves properties about them:

* the chunked image blob store built on MongoDB GridFS
  (`src/controllers/upload.controller.ts`), and
* the catalog query / aggregation engine for housing and establishment
  listings (`src/controllers/housing.controller.ts`,
  `src/controllers/establishment.controller.ts`).

Conventions of the embedding:

* Bytes are modelled as `Nat`, byte buffers as `List Nat`.
* JavaScript numbers arising from `parseInt` / `Number(...)` coercion are
  modelled as `Option Int`, with `none` standing for `NaN` (the source only
  ever deals in integer prices, page numbers and counts; `Math.ceil` on
  these magnitudes is exact).
* MongoDB GridFS (the `mongodb` driver's `GridFSBucket`) is modelled by an
  explicit bucket state holding the `housing_images.files` documents and the
  `housing_images.chunks` documents.  `openUploadStream` inserts chunk
  documents of `chunkSizeBytes` (default 255 KiB) as data is written and
  inserts the files document only when the stream finishes; on a chunk
  insert failure the stream emits `error` and previously inserted chunks
  are left in place unless `abort()` is called.  `GridFSBucket.delete`
  removes the files document together with all chunk documents of the id.
* Mongoose query execution over a collection is modelled as `List.filter`
  with an explicit predicate, a stable sort, `drop`/`take` for
  `skip`/`limit`, and `List.length` for `countDocuments`.
-/

set_option linter.unusedVariables false

namespace EtudeSenegal

/-! ## JavaScript coercion primitives -/

/-- Value of a digit list read in base 10 (used under a `isDigit` guard). -/
def digitsVal (l : List Char) : Nat :=
  l.foldl (fun acc c => acc * 10 + (c.toNat - 48)) 0

/-- Strip surrounding whitespace (JS `String.prototype.trim`). -/
def trimChars (cs : List Char) : List Char :=
  ((cs.dropWhile Char.isWhitespace).reverse.dropWhile Char.isWhitespace).reverse

def jsTrim (s : String) : String := ⟨trimChars s.toList⟩

/-- JS `String.prototype.toLowerCase` (ASCII range, which covers the data
this backend handles). -/
def lowerStr (s : String) : String := ⟨s.toList.map Char.toLower⟩

/-- `parseInt(s)` from JavaScript: skip surrounding whitespace, optional
sign, then the longest leading digit run; `none` models `NaN` (no digits).
Trailing non-digit characters are ignored, exactly as `parseInt` does. -/
def parseIntJS (s : String) : Option Int :=
  match trimChars s.toList with
  | '-' :: rest =>
      let ds := rest.takeWhile Char.isDigit
      if ds.isEmpty then none else some (-(digitsVal ds : Int))
  | '+' :: rest =>
      let ds := rest.takeWhile Char.isDigit
      if ds.isEmpty then none else some (digitsVal ds)
  | cs =>
      let ds := cs.takeWhile Char.isDigit
      if ds.isEmpty then none else some (digitsVal ds)

/-- `Number(s)` from JavaScript, restricted to the integer literals the
backend actually receives (prices, bedroom counts, limits).  The empty /
all-whitespace string coerces to `0`; a string that is not an integer
literal coerces to `NaN`, modelled as `none`.  (Fractional and exponent
literals do not occur in the claims under verification.) -/
def jsNumber (s : String) : Option Int :=
  match trimChars s.toList with
  | [] => some 0
  | '-' :: rest =>
      if !rest.isEmpty && rest.all Char.isDigit then
        some (-(digitsVal rest : Int)) else none
  | '+' :: rest =>
      if !rest.isEmpty && rest.all Char.isDigit then
        some (digitsVal rest) else none
  | cs => if cs.all Char.isDigit then some (digitsVal cs) else none

/-- JavaScript truthiness of an optional query-string parameter:
`undefined` and the empty string are falsy, every other string is truthy
(`if (minPrice) ...`, `if (type) ...`). -/
def truthy : Option String → Bool
  | none => false
  | some s => !(s == "")

/-! ## Generic stable insertion sort

`sortStable keepBefore l` models one deterministic execution of a MongoDB
`$sort` / `.sort(...)`: `keepBefore y x = true` means an element `y`
already in place must stay in front of the element `x` being inserted.
When `keepBefore` is the strict comparison of the sort key, elements with
equal keys keep their input order, which is one behaviour MongoDB is
allowed to exhibit (MongoDB leaves the relative order of ties
unspecified). -/

def insertStable {α : Type} (keepBefore : α → α → Bool) (x : α) :
    List α → List α
  | [] => [x]
  | y :: ys =>
      if keepBefore y x then y :: insertStable keepBefore x ys
      else x :: y :: ys

def sortStable {α : Type} (keepBefore : α → α → Bool) : List α → List α
  | [] => []
  | x :: xs => insertStable keepBefore x (sortStable keepBefore xs)

/-! ## GridFS bucket model

The upload controller stores images in MongoDB GridFS
(`new mongoose.mongo.GridFSBucket(db, { bucketName: 'housing_images' })`).
The model below captures the observable state of the bucket: the
`housing_images.files` collection and the `housing_images.chunks`
collection.  File ids (`ObjectId`s generated by the driver) are modelled
as `Nat` and supplied as parameters; the filename suffix built from
`Date.now()` and `Math.random()` is likewise supplied by the caller. -/

/-- GridFS default `chunkSizeBytes`: 255 KiB. -/
def gridFSChunkSize : Nat := 261120

/-- A document of the `housing_images.files` collection. -/
structure FileDoc where
  fid : Nat
  filename : String
  contentType : String
  length : Nat
  deriving Repr, DecidableEq

/-- A document of the `housing_images.chunks` collection:
`{files_id, n, data}`. -/
structure ChunkDoc where
  filesId : Nat
  n : Nat
  data : List Nat
  deriving Repr, DecidableEq

/-- Observable state of the GridFS bucket. -/
structure BucketState where
  files : List FileDoc
  chunks : List ChunkDoc
  deriving Repr, DecidableEq

def emptyBucket : BucketState := ⟨[], []⟩

/-- `filesCollection.findOne({ _id })`. -/
def findFile (st : BucketState) (fid : Nat) : Option FileDoc :=
  st.files.find? (fun f => f.fid == fid)

/-- All chunk documents of a given blob, in insertion order. -/
def chunksFor (st : BucketState) (fid : Nat) : List ChunkDoc :=
  st.chunks.filter (fun c => c.filesId == fid)

/-- `GridFSBucket.delete(_id)`: removes the files document and every chunk
document carrying that id. -/
def bucketDelete (st : BucketState) (fid : Nat) : BucketState :=
  { files := st.files.filter (fun f => !(f.fid == fid)),
    chunks := st.chunks.filter (fun c => !(c.filesId == fid)) }

/-- Split a byte buffer into GridFS chunks of at most `csz` bytes
(recursion on a fuel bounded by the buffer length, so the definition
reduces by `rfl`/`decide` on concrete inputs). -/
def splitChunksAux (csz : Nat) : Nat → List Nat → List (List Nat)
  | _, [] => []
  | 0, l => [l]
  | fuel + 1, l => l.take csz :: splitChunksAux csz fuel (l.drop csz)

def splitChunks (csz : Nat) (l : List Nat) : List (List Nat) :=
  splitChunksAux csz l.length l

/-- The chunk documents GridFS inserts for buffer pieces `cs` of blob
`fid`, numbering sequence numbers from `start`. -/
def chunkDocsFrom (fid : Nat) : Nat → List (List Nat) → List ChunkDoc
  | _, [] => []
  | start, c :: cs => ⟨fid, start, c⟩ :: chunkDocsFrom fid (start + 1) cs

/-- Writing the stream's chunks to the `chunks` collection one insert at a
time.  `failAt = some k` injects a storage fault on the insert of chunk
number `k` (the `error` event of `GridFSBucketWriteStream`); the inserts
already performed stay in the collection — GridFS only removes them if the
caller invokes `abort()`.  Returns `true` and the new state on success,
`false` and the partially-written state on failure. -/
def insertChunksFrom (fid : Nat) (failAt : Option Nat) :
    List (List Nat) → Nat → BucketState → Bool × BucketState
  | [], _, st => (true, st)
  | c :: cs, idx, st =>
      if failAt == some idx then (false, st)
      else insertChunksFrom fid failAt cs (idx + 1)
        { st with chunks := st.chunks ++ [⟨fid, idx, c⟩] }

/-- An incoming multer file (held in memory: `multer.memoryStorage()`). -/
structure InFile where
  originalname : String
  mimetype : String
  buffer : List Nat
  deriving Repr, DecidableEq

/-- Outcome of `uploadImage` as seen by the HTTP caller. -/
inductive UploadResult where
  /-- 200 response `{success, fileId, filename, url, originalName, size,
  mimetype}`. -/
  | ok (fileId : Nat) (filename : String) (size : Nat) (mimetype : String)
  /-- 500 response sent from the write stream's `error` handler. -/
  | storageFailure
  deriving Repr, DecidableEq

/-- `uploadImage` (upload.controller.ts lines 64-133) for one file that
passed the multer `fileFilter` and size limit: open an upload stream for a
fresh id `fid` and generated `filename`, write the whole buffer (GridFS
slices it into chunks of `gridFSChunkSize`), and end the stream.  On
`finish` the files document is inserted and a success body is returned; on
a chunk-write `error` the handler only logs and answers 500 — it performs
no `abort`, so the state keeps whatever chunks were already inserted and
never gains a files document. -/
def uploadImageM (st : BucketState) (fid : Nat) (filename : String)
    (file : InFile) (failAt : Option Nat) : UploadResult × BucketState :=
  let cs := splitChunks gridFSChunkSize file.buffer
  let r := insertChunksFrom fid failAt cs 0 st
  if r.1 then
    (UploadResult.ok fid filename file.buffer.length file.mimetype,
     { r.2 with
        files := r.2.files ++
          [⟨fid, filename, file.mimetype, file.buffer.length⟩] })
  else
    (UploadResult.storageFailure, r.2)

/-- Sort chunk documents by ascending sequence number, as
`openDownloadStream` reads them. -/
def sortChunkDocs (l : List ChunkDoc) : List ChunkDoc :=
  sortStable (fun y x => y.n < x.n) l

/-- Outcome of `getImage` as seen by the HTTP caller. -/
inductive GetResult where
  | notFound
  | ok (contentType : String) (bytes : List Nat)
  deriving Repr, DecidableEq

/-- `getImage` (upload.controller.ts lines 210-258): after the ObjectId
validity check (ids are already well-formed `Nat`s in the model), look the
id up in `housing_images.files`; absent means a 404.  Otherwise the
response carries the stored content type (falling back to `image/jpeg`)
and the bytes streamed by `gfs.openDownloadStream(_id)` — the chunks of
the blob in ascending sequence order, concatenated.  The handler never
reads a `Range` header and passes no start/end options to
`openDownloadStream`, so the `requestedStart` argument (a byte offset a
caller may have asked for) does not influence the result. -/
def getImageM (st : BucketState) (fid : Nat) (requestedStart : Option Nat) :
    GetResult :=
  match findFile st fid with
  | none => GetResult.notFound
  | some f =>
      GetResult.ok f.contentType
        (((sortChunkDocs (chunksFor st fid)).map ChunkDoc.data).flatten)

/-- Outcome of `deleteImage` as seen by the HTTP caller. -/
inductive DeleteResult where
  | notFound
  | ok
  deriving Repr, DecidableEq

/-- `deleteImage` (upload.controller.ts lines 317-357): look the id up in
`housing_images.files`; absent means a 404 and no state change.  Otherwise
`gfs.delete(_id)` removes the files document and all its chunks, and a
success body is returned. -/
def deleteImageM (st : BucketState) (fid : Nat) :
    DeleteResult × BucketState :=
  match findFile st fid with
  | none => (DeleteResult.notFound, st)
  | some _ => (DeleteResult.ok, bucketDelete st fid)

/-- Per-file entry of the `uploadMultipleImages` success response. -/
structure UploadedFile where
  fileId : Nat
  filename : String
  size : Nat
  mimetype : String
  deriving Repr, DecidableEq

/-- Outcome of `uploadMultipleImages` as seen by the HTTP caller. -/
inductive MultiUploadResult where
  /-- 200 response `{success, images, count}`. -/
  | ok (images : List UploadedFile)
  /-- single 500 response from the outer catch — carries no per-file
  information. -/
  | err
  deriving Repr, DecidableEq

/-- The filename generated for a multi-upload file:
`housing_${timestamp}_${random}_${originalname}`; the nondeterministic
timestamp/random pair is modelled by the fresh id. -/
def multiName (fid : Nat) (f : InFile) : String :=
  "housing_" ++ toString fid ++ "_" ++ f.originalname

/-- `uploadMultipleImages` (upload.controller.ts lines 138-205): iterate
over the files; each gets its own upload stream and generated name
(modelled by consecutive fresh ids starting at `fid`, with fault spec
`faults i` for the i-th remaining file).  The loop does
`uploadedImages.push(await uploadPromise)`: a rejected upload throws out
of the loop into the outer catch, which answers with one 500 — files after
the failing one are never written, already-uploaded files stay committed,
and no per-file outcome list is produced. -/
def uploadMultipleM : List InFile → Nat → (Nat → Option Nat) →
    BucketState → MultiUploadResult × BucketState
  | [], _, _, st => (MultiUploadResult.ok [], st)
  | f :: fs, fid, faults, st =>
      let r := uploadImageM st fid (multiName fid f) f (faults 0)
      match r.1 with
      | UploadResult.ok fileId fn sz mt =>
          let rest := uploadMultipleM fs (fid + 1) (fun i => faults (i + 1)) r.2
          match rest.1 with
          | MultiUploadResult.ok l =>
              (MultiUploadResult.ok (⟨fileId, fn, sz, mt⟩ :: l), rest.2)
          | MultiUploadResult.err => (MultiUploadResult.err, rest.2)
      | UploadResult.storageFailure => (MultiUploadResult.err, r.2)

/-! ## Housing catalog model

`src/controllers/housing.controller.ts` (source file `unnamed/part_001`).
A housing document per `src/models/Housing.ts`; `createdAt` comes from the
schema's `timestamps: true`.  Prices, bedroom counts and timestamps are
integers in this collection. -/

structure HousingDoc where
  hid : Nat
  title : String
  description : String
  type : String
  location : String
  neighborhood : String
  price : Int
  bedrooms : Int
  bathrooms : Int
  amenities : List String
  isAvailable : Bool
  createdAt : Int
  deriving Repr, DecidableEq

/-- The raw query-string parameters of `GET /api/housing` (each `none`
when the parameter is absent from the URL). -/
structure HousingParams where
  type : Option String := none
  location : Option String := none
  minPrice : Option String := none
  maxPrice : Option String := none
  bedrooms : Option String := none
  available : Option String := none
  page : Option String := none
  limit : Option String := none
  sort : Option String := none
  order : Option String := none
  deriving Repr, DecidableEq

/-- The mongo filter document built by `getAllHousing` lines 24-36.  A
price bound is `some v`: present with coerced value `v`, where `v = none`
models `NaN` (non-numeric text passed through `Number(...)`). -/
structure HousingQuery where
  type : Option String
  location : Option String
  priceGte : Option (Option Int)
  priceLte : Option (Option Int)
  bedroomsEq : Option (Option Int)
  isAvailable : Option Bool
  deriving Repr, DecidableEq

def buildHousingQuery (p : HousingParams) : HousingQuery :=
  { type := if truthy p.type then p.type else none,
    location := if truthy p.location then p.location else none,
    priceGte :=
      if truthy p.minPrice then some (jsNumber (p.minPrice.getD "")) else none,
    priceLte :=
      if truthy p.maxPrice then some (jsNumber (p.maxPrice.getD "")) else none,
    bedroomsEq :=
      if truthy p.bedrooms then some (jsNumber (p.bedrooms.getD "")) else none,
    isAvailable :=
      match p.available with
      | none => none
      | some s => some (s == "true") }

/-- Case-insensitive substring test: `{$regex: pat, $options: 'i'}` for the
plain-text patterns the frontend sends (no regex metacharacters). -/
def charsBeginWith : List Char → List Char → Bool
  | [], _ => true
  | _ :: _, [] => false
  | p :: ps, h :: hs => p == h && charsBeginWith ps hs

def charsHaveSub (pat : List Char) : List Char → Bool
  | [] => charsBeginWith pat []
  | h :: hs => charsBeginWith pat (h :: hs) || charsHaveSub pat hs

def iContains (hay pat : String) : Bool :=
  charsHaveSub (pat.toList.map Char.toLower) (hay.toList.map Char.toLower)

/-- `value >= bound` under BSON comparison when the bound may be `NaN`
(modelled `none`): NaN compares below every number, so every numeric value
satisfies `$gte: NaN` and none satisfies `$lte: NaN`. -/
def bsonGe (v : Int) : Option Int → Bool
  | none => true
  | some b => b ≤ v

def bsonLe (v : Int) : Option Int → Bool
  | none => false
  | some b => v ≤ b

def bsonEq (v : Int) : Option Int → Bool
  | none => false
  | some b => v == b

/-- Whether a housing document matches the built filter. -/
def housingMatches (q : HousingQuery) (d : HousingDoc) : Bool :=
  (match q.type with | none => true | some t => d.type == t) &&
  (match q.location with | none => true | some pat => iContains d.location pat) &&
  (match q.priceGte with | none => true | some b => bsonGe d.price b) &&
  (match q.priceLte with | none => true | some b => bsonLe d.price b) &&
  (match q.bedroomsEq with | none => true | some b => bsonEq d.bedrooms b) &&
  (match q.isAvailable with | none => true | some a => d.isAvailable == a)

/-- The sortable field values of a housing document; `none` for a field
name not present on the documents (MongoDB then compares the missing
value, making all documents tie). -/
def housingFieldVal (d : HousingDoc) : String → Option Int
  | "price" => some d.price
  | "bedrooms" => some d.bedrooms
  | "bathrooms" => some d.bathrooms
  | "createdAt" => some d.createdAt
  | _ => none

/-- BSON `<` on a possibly-missing numeric field (missing sorts first). -/
def bsonFieldLt : Option Int → Option Int → Bool
  | none, none => false
  | none, some _ => true
  | some _, none => false
  | some a, some b => a < b

/-- `.sort(sortOptions)` with `sortOptions[field] = asc ? 1 : -1`;
modelled as a stable sort (ties keep insertion order — one behaviour
MongoDB may exhibit, its tie order being unspecified). -/
def sortHousing (field : String) (asc : Bool) (l : List HousingDoc) :
    List HousingDoc :=
  sortStable
    (fun y x =>
      if asc then bsonFieldLt (housingFieldVal y field) (housingFieldVal x field)
      else bsonFieldLt (housingFieldVal x field) (housingFieldVal y field)) l

/-- First-occurrence deduplication, used to model `distinct` values and
`$group` keys (the order MongoDB returns groups in is unspecified; the
model fixes one order, first occurrence). -/
def dedupFirst {α : Type} [BEq α] : List α → List α
  | [] => []
  | x :: xs => x :: (dedupFirst xs).filter (fun y => !(y == x))

/-- `pageSpec` construction of `getAllHousing` lines 42-45 (identical in
`getEstablishments` lines 31-34): `page` defaults to `1` and `limit` to
`12` when absent, then both go straight through `parseInt` — clamping is
nowhere applied. -/
def buildPageSpec (page limit : Option String) : Option Int × Option Int :=
  (parseIntJS (page.getD "1"), parseIntJS (limit.getD "12"))

/-- `Math.ceil(total / limitNum)` for a nonnegative integer `total` and
positive integer `limitNum` (exact for the magnitudes involved).  The
`limitNum = 0` edge (JS `Infinity`/`NaN`, serialized as `null`) is mapped
to `0`; no claim depends on it. -/
def ceilDiv (total ln : Nat) : Nat :=
  if ln = 0 then 0 else (total + ln - 1) / ln

structure PriceRange where
  min : Int
  max : Int
  deriving Repr, DecidableEq

/-- The 200-response body of `getAllHousing` (lines 58-74). -/
structure HousingListBody where
  count : Nat
  total : Nat
  totalPages : Nat
  currentPage : Int
  priceRange : PriceRange
  types : List String
  locations : List String
  bedroomOptions : List Int
  data : List HousingDoc
  deriving Repr, DecidableEq

inductive HousingListResult where
  | ok (body : HousingListBody)
  /-- 500 from the catch block: reached when the storage layer rejects the
  query, e.g. a non-integer or negative `skip`/`limit` computed from the
  raw pagination input. -/
  | serverError
  deriving Repr, DecidableEq

/-- The response body on the happy path, given parsed `pageNum` and
`limitNum`. -/
def housingListBody (p : HousingParams) (coll : List HousingDoc)
    (pageNum limitNum : Int) : HousingListBody :=
  let q := buildHousingQuery p
  let sortField := p.sort.getD "createdAt"
  let asc := p.order.getD "desc" == "asc"
  let filtered := coll.filter (housingMatches q)
  let sorted := sortHousing sortField asc filtered
  let skip := (pageNum - 1) * limitNum
  -- `.limit(0)` means "no limit" to MongoDB.
  let data :=
    if limitNum = 0 then sorted.drop skip.toNat
    else (sorted.drop skip.toNat).take limitNum.toNat
  let byPriceAsc := sortStable (fun y x => y.price < x.price) coll
  let byPriceDesc := sortStable (fun y x => x.price < y.price) coll
  { count := data.length,
    total := filtered.length,
    totalPages := ceilDiv filtered.length limitNum.toNat,
    currentPage := pageNum,
    priceRange :=
      { min := (byPriceAsc.head?.map HousingDoc.price).getD 0,
        max := (byPriceDesc.head?.map HousingDoc.price).getD 0 },
    types := dedupFirst (coll.map HousingDoc.type),
    locations := dedupFirst (coll.map HousingDoc.location),
    bedroomOptions := dedupFirst (coll.map HousingDoc.bedrooms),
    data := data }

/-- `getAllHousing` (housing.controller.ts lines 8-83).  The filter, sort
and page window are built from the raw parameters; `find` is executed with
`sort`/`skip`/`limit`, `countDocuments` over the same filter without a
window, plus the two extremal `findOne`s and the three `distinct` facet
queries.  A `NaN` page or limit, or a negative computed `skip` or `limit`,
is rejected by the driver/server and surfaces through the catch block as a
500. -/
def getAllHousing (p : HousingParams) (coll : List HousingDoc) :
    HousingListResult :=
  match buildPageSpec p.page p.limit with
  | (some pageNum, some limitNum) =>
      if 0 ≤ (pageNum - 1) * limitNum ∧ 0 ≤ limitNum then
        HousingListResult.ok (housingListBody p coll pageNum limitNum)
      else HousingListResult.serverError
  | _ => HousingListResult.serverError

/-! ## Housing aggregation model (`getHousingStats`, `getHousingByType`) -/

def sumInt (l : List Int) : Int := l.foldl (· + ·) 0

/-- `$avg` over the values of a (nonempty) group, as an exact rational. -/
def avgQ (l : List Int) : ℚ := (sumInt l : ℚ) / (l.length : ℚ)

def minInt : List Int → Int
  | [] => 0
  | x :: xs => xs.foldl min x

def maxInt : List Int → Int
  | [] => 0
  | x :: xs => xs.foldl max x

/-- `$group: {_id: null, total, totalAvailable, avgPrice, minPrice,
maxPrice}` result, already merged with the `totalStats[0] || {...zeros}`
fallback of lines 396-398. -/
structure HousingTotalStats where
  total : Nat
  totalAvailable : Nat
  avgPrice : ℚ
  minPrice : Int
  maxPrice : Int
  deriving Repr, DecidableEq

structure TypeGroup where
  type : String
  count : Nat
  availableCount : Nat
  avgPrice : ℚ
  deriving Repr, DecidableEq

structure LocGroup where
  location : String
  count : Nat
  avgPrice : ℚ
  deriving Repr, DecidableEq

structure BedroomGroup where
  bedrooms : Int
  count : Nat
  avgPrice : ℚ
  deriving Repr, DecidableEq

structure AmenityGroup where
  amenity : String
  count : Nat
  deriving Repr, DecidableEq

def housingTotalStats (coll : List HousingDoc) : HousingTotalStats :=
  if coll.isEmpty then ⟨0, 0, 0, 0, 0⟩
  else
    { total := coll.length,
      totalAvailable := (coll.filter HousingDoc.isAvailable).length,
      avgPrice := avgQ (coll.map HousingDoc.price),
      minPrice := minInt (coll.map HousingDoc.price),
      maxPrice := maxInt (coll.map HousingDoc.price) }

def typeGroups (coll : List HousingDoc) : List TypeGroup :=
  (dedupFirst (coll.map HousingDoc.type)).map fun t =>
    let grp := coll.filter (fun d => d.type == t)
    { type := t,
      count := grp.length,
      availableCount := (grp.filter HousingDoc.isAvailable).length,
      avgPrice := avgQ (grp.map HousingDoc.price) }

def locGroups (coll : List HousingDoc) : List LocGroup :=
  (dedupFirst (coll.map HousingDoc.location)).map fun loc =>
    let grp := coll.filter (fun d => d.location == loc)
    { location := loc,
      count := grp.length,
      avgPrice := avgQ (grp.map HousingDoc.price) }

/-- The `byLocation` pipeline of `getHousingStats` lines 374-378 (the
establishment controller's `locationStats`, lines 456-460, is the same
pipeline without `avgPrice`): group by location, `$sort: {count: -1}` —
the count is the only sort key — then `$limit: 10`. -/
def locationStats (coll : List HousingDoc) : List LocGroup :=
  (sortStable (fun y x => x.count < y.count) (locGroups coll)).take 10

def bedroomGroups (coll : List HousingDoc) : List BedroomGroup :=
  sortStable (fun y x => y.bedrooms < x.bedrooms)
    ((dedupFirst (coll.map HousingDoc.bedrooms)).map fun b =>
      let grp := coll.filter (fun d => d.bedrooms == b)
      { bedrooms := b,
        count := grp.length,
        avgPrice := avgQ (grp.map HousingDoc.price) })

def amenityStats (coll : List HousingDoc) : List AmenityGroup :=
  let unwound := coll.flatMap HousingDoc.amenities
  (sortStable (fun y x => x.count < y.count)
    ((dedupFirst unwound).map fun a =>
      { amenity := a, count := (unwound.filter (fun x => x == a)).length })).take 5

/-- The `data` object of the `getHousingStats` 200 response
(lines 393-405). -/
structure HousingStatsBody where
  total : HousingTotalStats
  byType : List TypeGroup
  byLocation : List LocGroup
  byBedrooms : List BedroomGroup
  popularAmenities : List AmenityGroup
  deriving Repr, DecidableEq

/-- `getHousingStats` (lines 350-414). -/
def getHousingStats (coll : List HousingDoc) : HousingStatsBody :=
  { total := housingTotalStats coll,
    byType := typeGroups coll,
    byLocation := locationStats coll,
    byBedrooms := bedroomGroups coll,
    popularAmenities := amenityStats coll }

/-- `typeStats[0] || {count: 0, avgPrice: 0, minPrice: 0, maxPrice: 0}`
of `getHousingByType`. -/
structure TypeScopeStats where
  count : Nat
  avgPrice : ℚ
  minPrice : Int
  maxPrice : Int
  deriving Repr, DecidableEq

inductive ByTypeResult where
  /-- 400: type outside `['studio','colocation','university','apartment']`. -/
  | badRequest
  | ok (count : Nat) (stats : TypeScopeStats) (data : List HousingDoc)
  /-- 500 via catch (non-integer `limit`). -/
  | serverError
  deriving Repr, DecidableEq

/-- `getHousingByType` (lines 419-468): validate the type, list available
housing of the type (newest first, `limit` default 6), and aggregate
`$match: {type}` count/avg/min/max with the zero-sentinel fallback when
the matched scope is empty. -/
def getHousingByType (t : String) (limit : Option String)
    (coll : List HousingDoc) : ByTypeResult :=
  if !(["studio", "colocation", "university", "apartment"].contains t) then
    ByTypeResult.badRequest
  else
    match jsNumber (limit.getD "6") with
    | none => ByTypeResult.serverError
    | some lim =>
        let avail := coll.filter (fun d => d.type == t && d.isAvailable)
        let data := (sortHousing "createdAt" false avail).take lim.toNat
        let scope := coll.filter (fun d => d.type == t)
        let stats : TypeScopeStats :=
          if scope.isEmpty then ⟨0, 0, 0, 0⟩
          else
            { count := scope.length,
              avgPrice := avgQ (scope.map HousingDoc.price),
              minPrice := minInt (scope.map HousingDoc.price),
              maxPrice := maxInt (scope.map HousingDoc.price) }
        ByTypeResult.ok data.length stats data

/-! ## Establishment catalog model

`src/controllers/establishment.controller.ts`.  Document ids are modelled
as strings (ObjectId hex strings). -/

structure EstabDoc where
  eid : String
  name : String
  type : String
  location : String
  description : String
  studentsCount : Int
  rating : Int
  isCAMESRecognized : Bool
  programs : List String
  images : List String
  email : String
  phone : String
  website : String
  createdAt : Int
  deriving Repr, DecidableEq

/-- Raw query parameters of `GET /api/establishments`. -/
structure EstabParams where
  type : Option String := none
  location : Option String := none
  search : Option String := none
  page : Option String := none
  limit : Option String := none
  exclude : Option String := none
  deriving Repr, DecidableEq

/-- The filter document built by `getEstablishments` lines 14-29. -/
structure EstabQuery where
  type : Option String
  location : Option String
  search : Option String
  excludeId : Option String
  deriving Repr, DecidableEq

def buildEstabQuery (p : EstabParams) : EstabQuery :=
  { type := if truthy p.type then p.type else none,
    location := if truthy p.location then p.location else none,
    search := if truthy p.search then p.search else none,
    excludeId := if truthy p.exclude then p.exclude else none }

def estabMatches (q : EstabQuery) (d : EstabDoc) : Bool :=
  (match q.type with | none => true | some t => d.type == t) &&
  (match q.location with | none => true | some pat => iContains d.location pat) &&
  (match q.search with
   | none => true
   | some s => iContains d.name s || iContains d.description s ||
       iContains d.location s) &&
  (match q.excludeId with | none => true | some x => !(d.eid == x))

/-- The 200-response body of `getEstablishments` (lines 45-52). -/
structure EstabListBody where
  count : Nat
  total : Nat
  totalPages : Nat
  currentPage : Int
  data : List EstabDoc
  deriving Repr, DecidableEq

inductive EstabListResult where
  | ok (body : EstabListBody)
  | serverError
  deriving Repr, DecidableEq

def estabListBody (p : EstabParams) (coll : List EstabDoc)
    (pageNum limitNum : Int) : EstabListBody :=
  let q := buildEstabQuery p
  let filtered := coll.filter (estabMatches q)
  let sorted := sortStable (fun y x => x.createdAt < y.createdAt) filtered
  let skip := (pageNum - 1) * limitNum
  let data :=
    if limitNum = 0 then sorted.drop skip.toNat
    else (sorted.drop skip.toNat).take limitNum.toNat
  { count := data.length,
    total := filtered.length,
    totalPages := ceilDiv filtered.length limitNum.toNat,
    currentPage := pageNum,
    data := data }

/-- `getEstablishments` (establishment.controller.ts lines 9-61): same
filter/sort/page structure as `getAllHousing` with a fixed
`sort({createdAt: -1})`. -/
def getEstablishments (p : EstabParams) (coll : List EstabDoc) :
    EstabListResult :=
  match buildPageSpec p.page p.limit with
  | (some pageNum, some limitNum) =>
      if 0 ≤ (pageNum - 1) * limitNum ∧ 0 ≤ limitNum then
        EstabListResult.ok (estabListBody p coll pageNum limitNum)
      else EstabListResult.serverError
  | _ => EstabListResult.serverError

/-! ## Bulk import model (`importEstablishmentsBatch`) -/

/-- One candidate item of the import payload.  String fields are `none`
when the key is absent; JavaScript falsiness of a present empty string is
handled at the check sites. -/
structure RawItem where
  name : Option String := none
  type : Option String := none
  location : Option String := none
  email : Option String := none
  phone : Option String := none
  website : Option String := none
  description : Option String := none
  studentsCount : Option Int := none
  rating : Option Int := none
  isCAMESRecognized : Bool := false
  programs : Option (List String) := none
  images : Option (List String) := none
  deriving Repr, DecidableEq

/-- The regex `/^[^\s@]+@[^\s@]+\.[^\s@]+$/`: the whole string is
`a@rest` where `a` is nonempty without whitespace or `@`, `rest` is
nonempty without whitespace or `@`, and `rest` contains a dot that has at
least one character on each side (the classes `[^\s@]` admit further
dots, so any interior dot position witnesses a match). -/
def emailChar (c : Char) : Bool := !c.isWhitespace && !(c == '@')

def emailRegexTest (s : String) : Bool :=
  let cs := s.toList
  let a := cs.takeWhile (fun c => !(c == '@'))
  let rest := (cs.dropWhile (fun c => !(c == '@'))).drop 1
  cs.count '@' == 1 && !a.isEmpty && a.all emailChar &&
    !rest.isEmpty && rest.all emailChar &&
    ((List.range rest.length).any fun i =>
      rest.getD i ' ' == '.' && decide (1 ≤ i) && decide (i + 2 ≤ rest.length))

/-- The accumulators of the import loop (lines 172-176). -/
structure BatchResults where
  imported : List (String × String)
  errors : List String
  skipped : List String
  deriving Repr, DecidableEq

def validEstabTypes : List String := ["university", "school", "institute"]

/-- The insert payload built at lines 216-236 plus `Establishment.create`;
`newId` models the ObjectId generated for the document. -/
def buildEstabData (item : RawItem) (newId : String) : EstabDoc :=
  { eid := newId,
    name := jsTrim (item.name.getD ""),
    type := lowerStr (item.type.getD ""),
    location := item.location.getD "",
    description := item.description.getD "",
    studentsCount := item.studentsCount.getD 0,
    rating := min 5 (max 0 (item.rating.getD 0)),
    isCAMESRecognized := item.isCAMESRecognized,
    programs := ((item.programs.getD []).map jsTrim).filter
      (fun s => !(s == "")),
    images := item.images.getD [],
    email := jsTrim (lowerStr (item.email.getD "")),
    phone := jsTrim (item.phone.getD ""),
    website := jsTrim (item.website.getD ""),
    createdAt := 0 }

/-- One iteration of the import loop (lines 179-258) on item number
`lineNumber`, over the current establishment collection `db`.  Exactly one
of the three buckets receives the item: the required-field checks, the
email checks and the type check push an error; the duplicate lookup pushes
a skip; otherwise `create` pushes an import (or, should the insert itself
reject — modelled by the oracle `createFails` — the catch pushes an
error). -/
def importStep (createFails : EstabDoc → Bool) (item : RawItem)
    (lineNumber : Nat) (newId : String) (db : List EstabDoc)
    (acc : BatchResults) : BatchResults × List EstabDoc :=
  let line := "Ligne " ++ toString lineNumber ++ ": "
  if !(truthy item.name && truthy item.type && truthy item.location) then
    ({ acc with errors := acc.errors ++ [line ++ "Champs requis manquants"] }, db)
  else if !(truthy item.email) then
    ({ acc with errors := acc.errors ++ [line ++ "Email de contact requis"] }, db)
  else if !(emailRegexTest (item.email.getD "")) then
    ({ acc with errors := acc.errors ++ [line ++ "Format email invalide"] }, db)
  else if db.any (fun e =>
      e.name == jsTrim (item.name.getD "") ||
      e.email == lowerStr (item.email.getD "")) then
    ({ acc with skipped := acc.skipped ++ [line ++ "existe deja"] }, db)
  else
    let data := buildEstabData item newId
    if !(validEstabTypes.contains data.type) then
      ({ acc with errors := acc.errors ++ [line ++ "Type invalide"] }, db)
    else if createFails data then
      ({ acc with errors := acc.errors ++ [line ++ "Erreur inconnue"] }, db)
    else
      ({ acc with imported := acc.imported ++ [(data.name, data.email)] },
       db ++ [data])

/-- The sequential loop, numbering lines from `lineNumber` and drawing
fresh ids from `newId`. -/
def importLoop (createFails : EstabDoc → Bool) (newId : Nat → String) :
    List RawItem → Nat → List EstabDoc → BatchResults →
    BatchResults × List EstabDoc
  | [], _, db, acc => (acc, db)
  | item :: rest, lineNumber, db, acc =>
      let r := importStep createFails item lineNumber (newId lineNumber) db acc
      importLoop createFails newId rest (lineNumber + 1) r.2 r.1

/-- The `summary` object of the 200 response (lines 272-277). -/
structure ImportSummary where
  total : Nat
  imported : Nat
  errors : Nat
  skipped : Nat
  deriving Repr, DecidableEq

inductive ImportResult where
  /-- 400: payload not an array, or more than `MAX_BATCH_SIZE` items. -/
  | badRequest
  | ok (summary : ImportSummary)
  deriving Repr, DecidableEq

/-- `importEstablishmentsBatch` (establishment.controller.ts lines
151-310), for a payload that is an array: reject batches above 100 items,
otherwise run the loop and report the bucket sizes. -/
def importEstablishmentsBatch (createFails : EstabDoc → Bool)
    (newId : Nat → String) (items : List RawItem) (db : List EstabDoc) :
    ImportResult :=
  if items.length > 100 then ImportResult.badRequest
  else
    let r := importLoop createFails newId items 1 db ⟨[], [], []⟩
    ImportResult.ok
      { total := items.length,
        imported := r.1.imported.length,
        errors := r.1.errors.length,
        skipped := r.1.skipped.length }

/-! ## Concrete fixtures used by claim instances -/

/-- A populated one-blob bucket used to instantiate C7. -/
def oneBlobBucket : BucketState :=
  ⟨[⟨1, "a.png", "image/png", 1⟩], [⟨1, 0, [7]⟩]⟩

/-- A buffer one byte longer than one GridFS chunk: it splits into two
chunks, so a fault on the second chunk write leaves the first chunk
behind. -/
def bigBuffer : List Nat := List.replicate (gridFSChunkSize + 1) 0

def bigFile : InFile := ⟨"orig.png", "image/png", bigBuffer⟩

def smallPng : InFile := ⟨"o.png", "image/png", [1, 2, 3, 4]⟩

def fileA : InFile := ⟨"a.png", "image/png", [1]⟩

def fileB : InFile := ⟨"b.png", "image/png", [2]⟩

def c2Doc : HousingDoc :=
  { hid := 1, title := "T", description := "D", type := "studio",
    location := "Dakar", neighborhood := "Plateau", price := 100,
    bedrooms := 1, bathrooms := 1, amenities := [], isAvailable := true,
    createdAt := 5 }

def locDocB : HousingDoc := { c2Doc with hid := 1, location := "b" }

def locDocA : HousingDoc := { c2Doc with hid := 2, location := "a" }

/-- Eleven documents in eleven distinct locations (all priced 100): one
location group more than the facet's `$limit: 10`, so exactly one group —
the eleventh, `"k"` — is cut from the facet. -/
def locTenColl : List HousingDoc :=
  [{ c2Doc with hid := 1, location := "a" },
   { c2Doc with hid := 2, location := "b" },
   { c2Doc with hid := 3, location := "c" },
   { c2Doc with hid := 4, location := "d" },
   { c2Doc with hid := 5, location := "e" },
   { c2Doc with hid := 6, location := "f" },
   { c2Doc with hid := 7, location := "g" },
   { c2Doc with hid := 8, location := "h" },
   { c2Doc with hid := 9, location := "i" },
   { c2Doc with hid := 10, location := "j" },
   { c2Doc with hid := 11, location := "k" }]

def bucketsTotal (r : BatchResults) : Nat :=
  r.imported.length + r.errors.length + r.skipped.length

def c10Items : List RawItem :=
  [{}, { name := some "X", type := some "university",
         location := some "Dakar", email := some "x@y.zz" }]

/-! # Lemmas and claim theorems -/

/-! ## Stable sort lemmas -/

theorem length_insertStable {α : Type} (f : α → α → Bool) (x : α)
    (l : List α) : (insertStable f x l).length = l.length + 1 := by
  induction l with
  | nil => rfl
  | cons y ys ih =>
      simp only [insertStable]
      by_cases h : f y x
      · simp [h, ih]
      · simp [h]

theorem length_sortStable {α : Type} (f : α → α → Bool) (l : List α) :
    (sortStable f l).length = l.length := by
  induction l with
  | nil => rfl
  | cons x xs ih => simp [sortStable, length_insertStable, ih]

theorem mem_insertStable {α : Type} (f : α → α → Bool) (x a : α)
    (l : List α) : a ∈ insertStable f x l ↔ a ∈ x :: l := by
  induction l with
  | nil => simp [insertStable]
  | cons y ys ih =>
      simp only [insertStable]
      by_cases h : f y x
      · simp only [h, if_pos, List.mem_cons, ih]
        tauto
      · simp [h]

theorem mem_sortStable {α : Type} (f : α → α → Bool) (a : α) (l : List α) :
    a ∈ sortStable f l ↔ a ∈ l := by
  induction l with
  | nil => simp [sortStable]
  | cons x xs ih =>
      simp [sortStable, mem_insertStable, ih]

theorem pairwise_insertStable {α : Type} (f : α → α → Bool) (r : α → α → Prop)
    (htr : Transitive r)
    (hks : ∀ a b, f a b → r a b) (hkn : ∀ a b, ¬f a b → r b a)
    (x : α) (l : List α) (hl : l.Pairwise r) :
    (insertStable f x l).Pairwise r := by
  induction l with
  | nil => simp [insertStable]
  | cons y ys ih =>
      simp only [insertStable]
      by_cases h : f y x
      · simp only [h, if_pos]
        rcases List.pairwise_cons.1 hl with ⟨hy, hys⟩
        refine List.pairwise_cons.2 ⟨?_, ih hys⟩
        intro a ha
        rw [mem_insertStable, List.mem_cons] at ha
        rcases ha with rfl | ha
        · exact hks _ _ h
        · exact hy a ha
      · simp only [h, if_neg, not_false_iff]
        rcases List.pairwise_cons.1 hl with ⟨hy, _⟩
        refine List.pairwise_cons.2 ⟨?_, hl⟩
        intro a ha
        rcases List.mem_cons.1 ha with ha | ha
        · subst ha; exact hkn _ _ h
        · exact htr (hkn _ _ h) (hy a ha)

theorem sortStable_pairwise {α : Type} (f : α → α → Bool) (r : α → α → Prop)
    (htr : Transitive r)
    (hks : ∀ a b, f a b → r a b) (hkn : ∀ a b, ¬f a b → r b a)
    (l : List α) : (sortStable f l).Pairwise r := by
  induction l with
  | nil => simp [sortStable]
  | cons x xs ih => exact pairwise_insertStable f r htr hks hkn x _ ih

/-! ## GridFS model lemmas -/

theorem splitChunksAux_nil (csz fuel : Nat) :
    splitChunksAux csz fuel [] = [] := by
  cases fuel <;> rfl

theorem splitChunksAux_succ (csz fuel : Nat) (l : List Nat) (h : l ≠ []) :
    splitChunksAux csz (fuel + 1) l =
      l.take csz :: splitChunksAux csz fuel (l.drop csz) := by
  cases l with
  | nil => exact absurd rfl h
  | cons a as => rfl

theorem splitChunksAux_zero (csz : Nat) (l : List Nat) (h : l ≠ []) :
    splitChunksAux csz 0 l = [l] := by
  cases l with
  | nil => exact absurd rfl h
  | cons a as => rfl

/-- Reassembling the chunks of a buffer gives the buffer back. -/
theorem flatten_splitChunksAux (csz : Nat) :
    ∀ (fuel : Nat) (l : List Nat), (splitChunksAux csz fuel l).flatten = l := by
  intro fuel
  induction fuel with
  | zero =>
      intro l
      cases l with
      | nil => rfl
      | cons a as => simp [splitChunksAux]
  | succ n ih =>
      intro l
      cases l with
      | nil => rfl
      | cons a as =>
          rw [splitChunksAux_succ csz n _ (by simp)]
          simp [ih]

theorem flatten_splitChunks (csz : Nat) (l : List Nat) :
    (splitChunks csz l).flatten = l :=
  flatten_splitChunksAux csz l.length l

theorem chunkDocsFrom_filesId (fid : Nat) :
    ∀ (start : Nat) (cs : List (List Nat)) (c : ChunkDoc),
      c ∈ chunkDocsFrom fid start cs → c.filesId = fid := by
  intro start cs
  induction cs generalizing start with
  | nil => intro c hc; simp [chunkDocsFrom] at hc
  | cons x xs ih =>
      intro c hc
      rcases List.mem_cons.1 hc with rfl | hc
      · rfl
      · exact ih (start + 1) c hc

theorem chunkDocsFrom_data (fid : Nat) :
    ∀ (start : Nat) (cs : List (List Nat)),
      (chunkDocsFrom fid start cs).map ChunkDoc.data = cs := by
  intro start cs
  induction cs generalizing start with
  | nil => rfl
  | cons x xs ih => simp [chunkDocsFrom, ih]

/-- The chunk documents of one upload carry strictly increasing sequence
numbers starting at `start`, so the download-side sort leaves them in
place. -/
theorem sortStable_chunkDocsFrom (fid : Nat) :
    ∀ (cs : List (List Nat)) (start : Nat),
      sortStable (fun y x => y.n < x.n) (chunkDocsFrom fid start cs) =
        chunkDocsFrom fid start cs := by
  intro cs
  induction cs with
  | nil => intro start; rfl
  | cons x xs ih =>
      intro start
      simp only [chunkDocsFrom, sortStable, ih (start + 1)]
      cases xs with
      | nil => rfl
      | cons y ys =>
          simp only [chunkDocsFrom, insertStable]
          have : ¬((start + 1 : Nat) < start) := by omega
          simp [this]

theorem sortChunkDocs_chunkDocsFrom (fid start : Nat)
    (cs : List (List Nat)) :
    sortChunkDocs (chunkDocsFrom fid start cs) = chunkDocsFrom fid start cs :=
  sortStable_chunkDocsFrom fid cs start

/-- A fault-free chunk write appends exactly the upload's chunk
documents. -/
theorem insertChunksFrom_ok (fid : Nat) :
    ∀ (cs : List (List Nat)) (idx : Nat) (st : BucketState),
      insertChunksFrom fid none cs idx st =
        (true, { st with chunks := st.chunks ++ chunkDocsFrom fid idx cs }) := by
  intro cs
  induction cs with
  | nil => intro idx st; simp [insertChunksFrom, chunkDocsFrom]
  | cons c cs ih =>
      intro idx st
      simp [insertChunksFrom, chunkDocsFrom, ih]

/-- A chunk write that faults at chunk `k` (with `k` within the chunk
count) stops there: the result is failure, and the chunks numbered below
`k` stay appended to the collection. -/
theorem insertChunksFrom_fault (fid : Nat) :
    ∀ (cs : List (List Nat)) (idx k : Nat) (st : BucketState),
      idx ≤ k → k - idx < cs.length →
      insertChunksFrom fid (some k) cs idx st =
        (false,
         { st with
            chunks := st.chunks ++ chunkDocsFrom fid idx (cs.take (k - idx)) }) := by
  intro cs
  induction cs with
  | nil =>
      intro idx k st _ hlt
      simp at hlt
  | cons c cs ih =>
      intro idx k st hle hlt
      by_cases hk : k = idx
      · subst hk
        simp [insertChunksFrom, chunkDocsFrom, Nat.sub_self]
      · have hlt' : idx < k := lt_of_le_of_ne hle (fun h => hk h.symm)
        have hbeq : ((some k : Option Nat) == some idx) = false := by
          simp [hk]
        rw [insertChunksFrom, if_neg (by simp [hbeq, hk])]
        rw [ih (idx + 1) k _ hlt' (by simp at hlt ⊢; omega)]
        have htake : (c :: cs).take (k - idx) = c :: cs.take (k - idx - 1) := by
          obtain ⟨m, hm⟩ : ∃ m, k - idx = m + 1 := ⟨k - idx - 1, by omega⟩
          rw [hm, List.take_succ_cons]
          simp
        have harith : k - (idx + 1) = k - idx - 1 := by omega
        simp [htake, chunkDocsFrom, harith]

/-! ## C7 — deletion removes record and chunks together, idempotently -/

theorem findFile_bucketDelete (st : BucketState) (fid : Nat) :
    findFile (bucketDelete st fid) fid = none := by
  apply List.find?_eq_none.2
  intro f hf
  rcases List.mem_filter.1 hf with ⟨_, hp⟩
  simp at hp ⊢
  exact hp

theorem chunksFor_bucketDelete (st : BucketState) (fid : Nat) :
    chunksFor (bucketDelete st fid) fid = [] := by
  apply List.filter_eq_nil_iff.2
  intro c hc
  rcases List.mem_filter.1 hc with ⟨_, hp⟩
  simp at hp ⊢
  exact hp

/-- C7: `deleteImage` removes the blob record and its chunks together, and
is idempotent in the documented sense: deleting an existing blob id
returns success, and afterwards the id no longer resolves and no chunk of
it remains; every subsequent delete of the same id — and a delete of any
non-existent id — returns NotFound and leaves the store unchanged, so the
record is never resurrected. -/
theorem deleteImage_idempotent (st : BucketState) (fid : Nat) (f : FileDoc)
    (h : findFile st fid = some f) :
    (deleteImageM st fid).1 = DeleteResult.ok ∧
    findFile (deleteImageM st fid).2 fid = none ∧
    chunksFor (deleteImageM st fid).2 fid = [] ∧
    deleteImageM (deleteImageM st fid).2 fid =
      (DeleteResult.notFound, (deleteImageM st fid).2) ∧
    (∀ st2 : BucketState, findFile st2 fid = none →
      deleteImageM st2 fid = (DeleteResult.notFound, st2)) := by
  have h1 : deleteImageM st fid = (DeleteResult.ok, bucketDelete st fid) := by
    rw [deleteImageM, h]
  refine ⟨by rw [h1], ?_, ?_, ?_, ?_⟩
  · rw [h1]; exact findFile_bucketDelete st fid
  · rw [h1]; exact chunksFor_bucketDelete st fid
  · rw [h1]
    show deleteImageM (bucketDelete st fid) fid = _
    rw [deleteImageM, findFile_bucketDelete]
  · intro st2 h2
    rw [deleteImageM, h2]

theorem deleteImage_idempotent_witness :
    (deleteImageM oneBlobBucket 1).1 = DeleteResult.ok ∧
    findFile (deleteImageM oneBlobBucket 1).2 1 = none ∧
    chunksFor (deleteImageM oneBlobBucket 1).2 1 = [] ∧
    deleteImageM (deleteImageM oneBlobBucket 1).2 1 =
      (DeleteResult.notFound, (deleteImageM oneBlobBucket 1).2) ∧
    (∀ st2 : BucketState, findFile st2 1 = none →
      deleteImageM st2 1 = (DeleteResult.notFound, st2)) :=
  deleteImage_idempotent oneBlobBucket 1 ⟨1, "a.png", "image/png", 1⟩ rfl

/-! ## C1 — chunk-write failure mid-stream -/

theorem splitChunksAux_small (csz fuel : Nat) (l : List Nat) (h : l ≠ [])
    (hlen : l.length ≤ csz) : splitChunksAux csz fuel l = [l] := by
  cases fuel with
  | zero => exact splitChunksAux_zero csz l h
  | succ n =>
      rw [splitChunksAux_succ csz n l h, List.take_of_length_le hlen,
        List.drop_eq_nil_of_le hlen, splitChunksAux_nil]

theorem splitChunks_bigBuffer :
    splitChunks gridFSChunkSize bigBuffer =
      [List.replicate gridFSChunkSize 0, [0]] := by
  have hlen : bigBuffer.length = gridFSChunkSize + 1 := by
    simp [bigBuffer]
  rw [splitChunks, hlen]
  rw [splitChunksAux_succ _ _ _ (by simp [bigBuffer])]
  have ht : bigBuffer.take gridFSChunkSize =
      List.replicate gridFSChunkSize 0 := by
    rw [bigBuffer, List.take_replicate, Nat.min_eq_left (Nat.le_succ _)]
  have hd : bigBuffer.drop gridFSChunkSize = [0] := by
    rw [bigBuffer, List.drop_replicate]
    have h1 : gridFSChunkSize + 1 - gridFSChunkSize = 1 := by omega
    rw [h1]
    rfl
  rw [ht, hd,
    splitChunksAux_small _ _ _ (by simp) (by simp [gridFSChunkSize])]

/-- C1 counterexample: an upload of a two-chunk buffer whose second chunk
write faults.  The pipeline answers with a StorageFailure and the blob id
does not resolve, but — contrary to the claim — the draft blob is not
aborted: the first chunk stays in the chunk store. -/
theorem upload_fault_cex :
    (uploadImageM emptyBucket 1 "f.png" bigFile (some 1)).1 =
      UploadResult.storageFailure ∧
    findFile (uploadImageM emptyBucket 1 "f.png" bigFile (some 1)).2 1 =
      none ∧
    chunksFor (uploadImageM emptyBucket 1 "f.png" bigFile (some 1)).2 1 =
      [⟨1, 0, List.replicate gridFSChunkSize 0⟩] := by
  have hins := insertChunksFrom_fault 1
    [List.replicate gridFSChunkSize 0, [0]] 0 1 emptyBucket
    (Nat.zero_le 1) (by simp)
  have hbuf : bigFile.buffer = bigBuffer := rfl
  simp only [uploadImageM, hbuf, splitChunks_bigBuffer, hins]
  refine ⟨rfl, rfl, ?_⟩
  simp [chunksFor, chunkDocsFrom, emptyBucket]

/-- C1 amended: when a chunk write fails mid-stream, `uploadImage`
returns a StorageFailure and the blob id afterwards resolves to NotFound
(the files record is only inserted when the stream finishes) — but the
error handler performs no `abort`, so every chunk written before the
failure remains in the chunk store. -/
theorem upload_fault_no_abort (st : BucketState) (fid : Nat) (fn : String)
    (file : InFile) (k : Nat)
    (hfree : ∀ f ∈ st.files, f.fid ≠ fid)
    (hk : k < (splitChunks gridFSChunkSize file.buffer).length) :
    (uploadImageM st fid fn file (some k)).1 = UploadResult.storageFailure ∧
    findFile (uploadImageM st fid fn file (some k)).2 fid = none ∧
    (uploadImageM st fid fn file (some k)).2.files = st.files ∧
    (uploadImageM st fid fn file (some k)).2.chunks =
      st.chunks ++ chunkDocsFrom fid 0
        ((splitChunks gridFSChunkSize file.buffer).take k) := by
  have hins := insertChunksFrom_fault fid
    (splitChunks gridFSChunkSize file.buffer) 0 k st (Nat.zero_le k)
    (by simpa using hk)
  simp only [Nat.sub_zero] at hins
  simp only [uploadImageM, hins]
  refine ⟨rfl, ?_, rfl, rfl⟩
  apply List.find?_eq_none.2
  intro f hf
  simpa using hfree f hf

theorem upload_fault_no_abort_witness :
    (uploadImageM emptyBucket 2 "x.png" ⟨"a.png", "image/png", [9]⟩
        (some 0)).1 = UploadResult.storageFailure ∧
    findFile (uploadImageM emptyBucket 2 "x.png" ⟨"a.png", "image/png", [9]⟩
        (some 0)).2 2 = none ∧
    (uploadImageM emptyBucket 2 "x.png" ⟨"a.png", "image/png", [9]⟩
        (some 0)).2.files = emptyBucket.files ∧
    (uploadImageM emptyBucket 2 "x.png" ⟨"a.png", "image/png", [9]⟩
        (some 0)).2.chunks =
      emptyBucket.chunks ++ chunkDocsFrom 2 0
        ((splitChunks gridFSChunkSize
            (⟨"a.png", "image/png", [9]⟩ : InFile).buffer).take 0) :=
  upload_fault_no_abort emptyBucket 2 "x.png" ⟨"a.png", "image/png", [9]⟩ 0
    (by simp [emptyBucket]) (by decide)

/-! ## C3 — retrieval and byte ranges -/

/-- C3 counterexample: a stored blob of length `L = 4` and a requested
offset `O = 2 < L`.  The retrieval yields all 4 original bytes, not the
`L - O = 2` tail bytes the claim requires: `getImage` never consults the
requested offset. -/
theorem getImage_range_cex :
    (uploadImageM emptyBucket 1 "f.png" smallPng none).1 =
      UploadResult.ok 1 "f.png" 4 "image/png" ∧
    getImageM (uploadImageM emptyBucket 1 "f.png" smallPng none).2 1
        (some 2) = GetResult.ok "image/png" [1, 2, 3, 4] ∧
    ¬(([1, 2, 3, 4] : List Nat).length = 4 - 2) := by
  decide

/-- C3 amended: retrieval by blob id streams the whole blob from chunk 0:
for every freshly stored blob the retrieval yields all of the original
content with the stored content type, whatever byte offset was requested —
the handler passes no start offset to `openDownloadStream`, so byte-range
requests are not honoured. -/
theorem getImage_streams_full (st : BucketState) (fid : Nat) (fn : String)
    (file : InFile) (reqStart : Option Nat)
    (hfreeF : ∀ f ∈ st.files, f.fid ≠ fid)
    (hfreeC : ∀ c ∈ st.chunks, c.filesId ≠ fid) :
    getImageM (uploadImageM st fid fn file none).2 fid reqStart =
      GetResult.ok file.mimetype file.buffer := by
  have hins := insertChunksFrom_ok fid
    (splitChunks gridFSChunkSize file.buffer) 0 st
  have hupd : (uploadImageM st fid fn file none).2 =
      { files := st.files ++ [⟨fid, fn, file.mimetype, file.buffer.length⟩],
        chunks := st.chunks ++
          chunkDocsFrom fid 0 (splitChunks gridFSChunkSize file.buffer) } := by
    simp [uploadImageM, hins]
  have hfind :
      findFile
        { files := st.files ++ [⟨fid, fn, file.mimetype, file.buffer.length⟩],
          chunks := st.chunks ++
            chunkDocsFrom fid 0 (splitChunks gridFSChunkSize file.buffer) }
        fid = some ⟨fid, fn, file.mimetype, file.buffer.length⟩ := by
    rw [findFile]
    show (st.files ++ _).find? _ = _
    rw [List.find?_append, List.find?_eq_none.2
      (fun f hf => by simpa using hfreeF f hf)]
    simp
  have hchunks :
      chunksFor
        { files := st.files ++ [⟨fid, fn, file.mimetype, file.buffer.length⟩],
          chunks := st.chunks ++
            chunkDocsFrom fid 0 (splitChunks gridFSChunkSize file.buffer) }
        fid = chunkDocsFrom fid 0 (splitChunks gridFSChunkSize file.buffer) := by
    rw [chunksFor]
    show (st.chunks ++ _).filter _ = _
    rw [List.filter_append,
      List.filter_eq_nil_iff.2 (fun c hc => by simpa using hfreeC c hc),
      List.filter_eq_self.2 (fun c hc => by
        simp [chunkDocsFrom_filesId fid 0 _ c hc])]
    simp
  rw [hupd]
  simp only [getImageM, hfind, hchunks, sortChunkDocs_chunkDocsFrom,
    chunkDocsFrom_data, flatten_splitChunks]

theorem getImage_streams_full_witness :
    getImageM (uploadImageM emptyBucket 1 "f.png" smallPng none).2 1
        (some 3) = GetResult.ok smallPng.mimetype smallPng.buffer :=
  getImage_streams_full emptyBucket 1 "f.png" smallPng (some 3)
    (by simp [emptyBucket]) (by simp [emptyBucket])

/-! ## C8 — multi-file upload failure handling -/

/-- C8 counterexample: a two-file request whose first file faults on its
first chunk write.  The aggregate response is the single error `err`
carrying no per-file outcomes, and the sibling `fileB` is never uploaded
(the final bucket is still empty) — even though, run on its own, `fileB`
would succeed. -/
theorem uploadMultiple_cex :
    uploadMultipleM [fileA, fileB] 1
        (fun i => if i == 0 then some 0 else none) emptyBucket =
      (MultiUploadResult.err, emptyBucket) ∧
    (uploadMultipleM [fileB] 2 (fun _ => none) emptyBucket).1 =
      MultiUploadResult.ok [⟨2, "housing_2_b.png", 1, "image/png"⟩] := by
  decide

/-- C8 amended: each file does get its own upload stream, but the files
are awaited sequentially and the first failure aborts the whole request:
the response is a single error, later sibling files are not uploaded
(the state stops at the failing upload's state, with earlier committed
files kept), and per-file outcomes are reported only on the all-success
path, where the response lists exactly one entry per file. -/
theorem uploadMultiple_fail_fast (st : BucketState) (f : InFile)
    (fs : List InFile) (fid : Nat) (faults : Nat → Option Nat)
    (hfail : (uploadImageM st fid (multiName fid f) f (faults 0)).1 =
      UploadResult.storageFailure) :
    uploadMultipleM (f :: fs) fid faults st =
      (MultiUploadResult.err,
       (uploadImageM st fid (multiName fid f) f (faults 0)).2) ∧
    (∀ (gs : List InFile) (gid : Nat) (st0 : BucketState),
      ∃ l : List UploadedFile,
        (uploadMultipleM gs gid (fun _ => none) st0).1 =
          MultiUploadResult.ok l ∧
        l.length = gs.length) := by
  constructor
  · simp only [uploadMultipleM]
    rw [hfail]
  · intro gs
    induction gs with
    | nil => intro gid st0; exact ⟨[], rfl, rfl⟩
    | cons g gs ih =>
        intro gid st0
        have h1 : (uploadImageM st0 gid (multiName gid g) g none).1 =
            UploadResult.ok gid (multiName gid g) g.buffer.length
              g.mimetype := by
          simp [uploadImageM, insertChunksFrom_ok]
        obtain ⟨l, hl, hlen⟩ :=
          ih (gid + 1) (uploadImageM st0 gid (multiName gid g) g none).2
        refine ⟨⟨gid, multiName gid g, g.buffer.length, g.mimetype⟩ :: l,
          ?_, by simp [hlen]⟩
        simp only [uploadMultipleM]
        rw [h1]
        simp only []
        rw [hl]

theorem uploadMultiple_fail_fast_witness :
    uploadMultipleM [fileA, fileB] 1 (fun _ => some 0) emptyBucket =
      (MultiUploadResult.err,
       (uploadImageM emptyBucket 1 (multiName 1 fileA) fileA
          ((fun _ => (some 0 : Option Nat)) 0)).2) ∧
    (∀ (gs : List InFile) (gid : Nat) (st0 : BucketState),
      ∃ l : List UploadedFile,
        (uploadMultipleM gs gid (fun _ => none) st0).1 =
          MultiUploadResult.ok l ∧
        l.length = gs.length) :=
  uploadMultiple_fail_fast emptyBucket fileA [fileB] 1 (fun _ => some 0)
    (by decide)

/-! ## Pagination arithmetic and C2 -/

/-- `ceilDiv t L` is the ceiling of `t / L`: the least `m` with
`t ≤ m * L`. -/
theorem ceilDiv_spec (t L : Nat) (hL : 1 ≤ L) :
    t ≤ ceilDiv t L * L ∧ ∀ m : Nat, t ≤ m * L → ceilDiv t L ≤ m := by
  rw [ceilDiv, if_neg (by omega)]
  constructor
  · by_cases ht : t = 0
    · simp [ht]
    · have hq : (t + L - 1) / L = (t - 1) / L + 1 := by
        have he : t + L - 1 = (t - 1) + L := by omega
        rw [he, Nat.add_div_right _ (by omega)]
      rw [hq, Nat.succ_mul]
      have hdm := Nat.div_add_mod (t - 1) L
      have hmod : (t - 1) % L < L := Nat.mod_lt _ (by omega)
      have hcomm : (t - 1) / L * L = L * ((t - 1) / L) := Nat.mul_comm _ _
      rw [hcomm]
      omega
  · intro m hm
    have h1 : t + L - 1 < (m + 1) * L := by
      rw [Nat.succ_mul]
      omega
    have h2 := (Nat.div_lt_iff_lt_mul (by omega : 0 < L)).2 h1
    omega

/-- Shared pagination window facts: with a positive page number and page
size, the reported `totalPages` is the exact ceiling of
`totalCount / pageSize`, and a requested page beyond it makes the
`skip`/`limit` window fall entirely past the (sorted) result list. -/
theorem page_core {α : Type} (filtered sorted : List α) (pn ln : Int)
    (hlen : sorted.length = filtered.length) (hpn : 1 ≤ pn)
    (hln : 1 ≤ ln) :
    filtered.length ≤ ceilDiv filtered.length ln.toNat * ln.toNat ∧
    (∀ m : Nat, filtered.length ≤ m * ln.toNat →
      ceilDiv filtered.length ln.toNat ≤ m) ∧
    ((ceilDiv filtered.length ln.toNat : Int) < pn →
      (sorted.drop ((pn - 1) * ln).toNat).take ln.toNat = []) := by
  have hL : 1 ≤ ln.toNat := by omega
  have hspec := ceilDiv_spec filtered.length ln.toNat hL
  refine ⟨hspec.1, hspec.2, ?_⟩
  intro hbeyond
  have h2 : (ceilDiv filtered.length ln.toNat : Int) ≤ pn - 1 := by omega
  have hcast :
      ((ceilDiv filtered.length ln.toNat * ln.toNat : Nat) : Int) =
        (ceilDiv filtered.length ln.toNat : Int) * ln := by
    push_cast
    rw [Int.toNat_of_nonneg (by omega : (0 : Int) ≤ ln)]
  have h3 : (filtered.length : Int) ≤ (pn - 1) * ln := by
    calc (filtered.length : Int) ≤
        ((ceilDiv filtered.length ln.toNat * ln.toNat : Nat) : Int) := by
          exact_mod_cast hspec.1
      _ = (ceilDiv filtered.length ln.toNat : Int) * ln := hcast
      _ ≤ (pn - 1) * ln := mul_le_mul_of_nonneg_right h2 (by omega)
  have h4 : sorted.length ≤ ((pn - 1) * ln).toNat := by omega
  rw [List.drop_eq_nil_of_le h4]
  exact List.take_nil

/-- C2: for every housing and every establishment catalog query with a
positive parsed page number and page size, the request succeeds and the
returned body's `total` is the size of the full filtered set —
independent of the page window; `totalPages` is exactly the ceiling of
`total / pageSize` (the least page count whose pages cover all results);
and a requested page number beyond `totalPages` yields an empty `data`
sequence with `count = 0` while `total` still reports the full filtered
set — not an error. -/
theorem catalog_pagination_consistent :
    (∀ (p : HousingParams) (coll : List HousingDoc) (pn ln : Int),
      buildPageSpec p.page p.limit = (some pn, some ln) →
      1 ≤ pn → 1 ≤ ln →
      getAllHousing p coll =
        HousingListResult.ok (housingListBody p coll pn ln) ∧
      (housingListBody p coll pn ln).total =
        (coll.filter (housingMatches (buildHousingQuery p))).length ∧
      (housingListBody p coll pn ln).total ≤
        (housingListBody p coll pn ln).totalPages * ln.toNat ∧
      (∀ m : Nat, (housingListBody p coll pn ln).total ≤ m * ln.toNat →
        (housingListBody p coll pn ln).totalPages ≤ m) ∧
      (((housingListBody p coll pn ln).totalPages : Int) < pn →
        (housingListBody p coll pn ln).data = [] ∧
        (housingListBody p coll pn ln).count = 0)) ∧
    (∀ (p : EstabParams) (coll : List EstabDoc) (pn ln : Int),
      buildPageSpec p.page p.limit = (some pn, some ln) →
      1 ≤ pn → 1 ≤ ln →
      getEstablishments p coll =
        EstabListResult.ok (estabListBody p coll pn ln) ∧
      (estabListBody p coll pn ln).total =
        (coll.filter (estabMatches (buildEstabQuery p))).length ∧
      (estabListBody p coll pn ln).total ≤
        (estabListBody p coll pn ln).totalPages * ln.toNat ∧
      (∀ m : Nat, (estabListBody p coll pn ln).total ≤ m * ln.toNat →
        (estabListBody p coll pn ln).totalPages ≤ m) ∧
      (((estabListBody p coll pn ln).totalPages : Int) < pn →
        (estabListBody p coll pn ln).data = [] ∧
        (estabListBody p coll pn ln).count = 0)) := by
  constructor
  · intro p coll pn ln hps hpn hln
    have hcore := page_core
      (coll.filter (housingMatches (buildHousingQuery p)))
      (sortHousing (p.sort.getD "createdAt") (p.order.getD "desc" == "asc")
        (coll.filter (housingMatches (buildHousingQuery p))))
      pn ln (length_sortStable _ _) hpn hln
    refine ⟨?_, rfl, hcore.1, hcore.2.1, ?_⟩
    · simp only [getAllHousing, hps]
      rw [if_pos ⟨mul_nonneg (by omega) (by omega), by omega⟩]
    · intro hbeyond
      have hdata : (housingListBody p coll pn ln).data = [] := by
        simp only [housingListBody]
        rw [if_neg (by omega : ¬ln = 0)]
        exact hcore.2.2 hbeyond
      refine ⟨hdata, ?_⟩
      show (housingListBody p coll pn ln).data.length = 0
      rw [hdata]
      rfl
  · intro p coll pn ln hps hpn hln
    have hcore := page_core
      (coll.filter (estabMatches (buildEstabQuery p)))
      (sortStable (fun y x => x.createdAt < y.createdAt)
        (coll.filter (estabMatches (buildEstabQuery p))))
      pn ln (length_sortStable _ _) hpn hln
    refine ⟨?_, rfl, hcore.1, hcore.2.1, ?_⟩
    · simp only [getEstablishments, hps]
      rw [if_pos ⟨mul_nonneg (by omega) (by omega), by omega⟩]
    · intro hbeyond
      have hdata : (estabListBody p coll pn ln).data = [] := by
        simp only [estabListBody]
        rw [if_neg (by omega : ¬ln = 0)]
        exact hcore.2.2 hbeyond
      refine ⟨hdata, ?_⟩
      show (estabListBody p coll pn ln).data.length = 0
      rw [hdata]
      rfl

theorem catalog_pagination_consistent_witness :
    getAllHousing { page := some "7", limit := some "2" } [c2Doc] =
      HousingListResult.ok
        (housingListBody { page := some "7", limit := some "2" } [c2Doc] 7 2) ∧
    (housingListBody { page := some "7", limit := some "2" } [c2Doc] 7 2).total =
      ([c2Doc].filter (housingMatches
        (buildHousingQuery { page := some "7", limit := some "2" }))).length ∧
    (housingListBody { page := some "7", limit := some "2" } [c2Doc] 7 2).total ≤
      (housingListBody { page := some "7", limit := some "2" } [c2Doc] 7
          2).totalPages * (2 : Int).toNat ∧
    (∀ m : Nat,
      (housingListBody { page := some "7", limit := some "2" } [c2Doc] 7
          2).total ≤ m * (2 : Int).toNat →
      (housingListBody { page := some "7", limit := some "2" } [c2Doc] 7
          2).totalPages ≤ m) ∧
    (((housingListBody { page := some "7", limit := some "2" } [c2Doc] 7
          2).totalPages : Int) < 7 →
      (housingListBody { page := some "7", limit := some "2" } [c2Doc] 7
          2).data = [] ∧
      (housingListBody { page := some "7", limit := some "2" } [c2Doc] 7
          2).count = 0) :=
  catalog_pagination_consistent.1
    { page := some "7", limit := some "2" } [c2Doc] 7 2 (by decide)
    (by decide) (by decide)

/-! ## C4 — pagination input clamping -/

/-- C4 counterexample: the raw request `page=0&limit=5000` produces the
built pageSpec `(0, 5000)`: the page number below 1 and the oversized page
size both pass through unclamped (no configured maximum exists anywhere in
the controllers), refuting `pageNumber ≥ 1` and `pageSize ≤ max`. -/
theorem pageSpec_unclamped_cex :
    buildPageSpec (some "0") (some "5000") = (some 0, some 5000) ∧
    ¬(1 ≤ (0 : Int)) := by
  decide

/-- C4 amended: the built pageSpec is `parseInt` of the raw values, with
defaults 1 and 12 used only when the parameter is absent; the parsed
numbers are passed through without any clamping, so whatever integers the
raw strings denote — page numbers below 1, arbitrarily large or negative
page sizes — appear unchanged, and no maximum page size is enforced. -/
theorem pageSpec_passthrough (ps ls : String) (pv lv : Int)
    (hp : parseIntJS ps = some pv) (hl : parseIntJS ls = some lv) :
    buildPageSpec (some ps) (some ls) = (some pv, some lv) ∧
    buildPageSpec none none = (some 1, some 12) := by
  constructor
  · simp [buildPageSpec, hp, hl]
  · rfl

theorem pageSpec_passthrough_witness :
    buildPageSpec (some "0") (some "5000") = (some 0, some 5000) ∧
    buildPageSpec none none = (some 1, some 12) :=
  pageSpec_passthrough "0" "5000" 0 5000 (by decide) (by decide)

/-! ## C5 — numeric range filters -/

/-- C5 counterexample: `minPrice=abc` is not reported as a validation
error.  `Number('abc')` is NaN; the bound is still installed in the built
query (`priceGte = some none`), and the handler answers with a normal 200
body — `getAllHousing` has no validation-error path for filter values (its
only non-2xx answer is the catch-all 500). -/
theorem price_nonnumeric_cex :
    (buildHousingQuery { minPrice := some "abc" }).priceGte = some none ∧
    getAllHousing { minPrice := some "abc" } [] =
      HousingListResult.ok
        (housingListBody { minPrice := some "abc" } [] 1 12) := by
  exact ⟨by decide, by decide⟩

/-- C5 amended: a present numeric `min`/`max` price bound is applied
inclusively (a document whose price equals a bound matches) and an absent
bound leaves that side unconstrained — but a non-numeric textual bound is
not a validation error: `Number(...)` coerces it to NaN and the NaN bound
is installed in the query while the handler answers with a normal success
response. -/
theorem price_range_semantics (minS maxS : String) (mv xv : Int)
    (d : HousingDoc)
    (hmin : jsNumber minS = some mv) (hmax : jsNumber maxS = some xv)
    (hne : ¬(minS = "")) (hxe : ¬(maxS = "")) :
    housingMatches
        (buildHousingQuery { minPrice := some minS, maxPrice := some maxS })
        d = (decide (mv ≤ d.price) && decide (d.price ≤ xv)) ∧
    housingMatches (buildHousingQuery {}) d = true ∧
    (buildHousingQuery { minPrice := some "abc" }).priceGte = some none := by
  refine ⟨?_, ?_, by decide⟩
  · simp [housingMatches, buildHousingQuery, truthy, hne, hxe, hmin, hmax,
      bsonGe, bsonLe]
  · simp [housingMatches, buildHousingQuery, truthy]

/-- The spec's own test vector: prices 100/200/300 with the inclusive
range 150–250 keep exactly the 200 document, and the degenerate range
200–200 still includes the 200 document. -/
theorem price_range_semantics_witness :
    (housingMatches
        (buildHousingQuery { minPrice := some "150", maxPrice := some "250" })
        { c2Doc with price := 200 } =
      (decide ((150 : Int) ≤ ({ c2Doc with price := 200 } : HousingDoc).price) &&
        decide (({ c2Doc with price := 200 } : HousingDoc).price ≤ (250 : Int))) ∧
      housingMatches (buildHousingQuery {}) { c2Doc with price := 200 } = true ∧
      (buildHousingQuery { minPrice := some "abc" }).priceGte = some none) ∧
    ([({c2Doc with price := 100} : HousingDoc), {c2Doc with price := 200},
        {c2Doc with price := 300}].filter
      (housingMatches (buildHousingQuery
        { minPrice := some "150", maxPrice := some "250" }))).map
          HousingDoc.price = [200] ∧
    housingMatches
      (buildHousingQuery { minPrice := some "200", maxPrice := some "200" })
      { c2Doc with price := 200 } = true :=
  ⟨price_range_semantics "150" "250" 150 250 { c2Doc with price := 200 }
      (by decide) (by decide) (by decide) (by decide),
   by decide, by decide⟩

/-! ## C6 — empty-scope aggregation sentinels -/

/-- C6: aggregation over an empty scope never fails and returns the zero
sentinel: `getHousingStats` of the empty collection reports
`min = max = 0` (and zero count/avg) with empty per-type, per-location,
per-bedroom and per-amenity groupings; `getHousingByType` returns the same
zero sentinel whenever its `$match`-filtered scope is empty; and the
catalog listing's global price range over an empty collection is
`{min: 0, max: 0}`. -/
theorem stats_empty_sentinel :
    getHousingStats [] = ⟨⟨0, 0, 0, 0, 0⟩, [], [], [], []⟩ ∧
    (∀ (t : String) (coll : List HousingDoc),
      ["studio", "colocation", "university", "apartment"].contains t = true →
      coll.filter (fun d => d.type == t) = [] →
      getHousingByType t none coll = ByTypeResult.ok 0 ⟨0, 0, 0, 0⟩ []) ∧
    (∀ (p : HousingParams) (pn ln : Int),
      (housingListBody p [] pn ln).priceRange = ⟨0, 0⟩) := by
  refine ⟨by decide, ?_, ?_⟩
  · intro t coll ht hscope
    have havail : coll.filter (fun d => d.type == t && d.isAvailable) = [] := by
      apply List.filter_eq_nil_iff.2
      intro d hd
      have hnot := List.filter_eq_nil_iff.1 hscope d hd
      simp only [Bool.and_eq_true, not_and]
      intro he
      exact absurd he hnot
    rw [getHousingByType, if_neg (by rw [ht]; decide)]
    show (match jsNumber "6" with
      | none => ByTypeResult.serverError
      | some lim => _) = _
    rw [show jsNumber "6" = some 6 from by decide]
    simp only [havail, hscope]
    rfl
  · intro p pn ln
    rfl

theorem stats_empty_sentinel_witness :
    getHousingByType "studio" none [] = ByTypeResult.ok 0 ⟨0, 0, 0, 0⟩ [] ∧
    (housingListBody {} [] 1 12).priceRange = ⟨0, 0⟩ :=
  ⟨stats_empty_sentinel.2.1 "studio" [] (by decide) rfl,
   stats_empty_sentinel.2.2 {} 1 12⟩

/-! ## C9 — per-location facet ordering -/

/-- C9 counterexample: two locations with equal item counts (one each).
The pipeline sorts on the count alone, so the tie keeps the pipeline
order: location "b" is listed before "a", which is not the lexicographic
order the claim requires. -/
theorem perLocation_tie_cex :
    (locationStats [locDocB, locDocA]).map LocGroup.location = ["b", "a"] ∧
    (locationStats [locDocB, locDocA]).map LocGroup.count = [1, 1] := by
  constructor <;> rfl

/-- C9 amended: the per-location facet is exactly the top ten location
groups by descending item count: the output is sorted by non-increasing
count, contains `min 10 (number of location groups)` entries (so all of
them when fewer than ten locations exist), every entry is one of the
location groups, and no omitted group out-counts any included one.  The
`$sort` key is the count alone — no tie-break on the location string is
specified, so locations with equal counts appear in pipeline order, not
lexicographic order. -/
theorem perLocation_top10 (coll : List HousingDoc) :
    (locationStats coll).Pairwise (fun a b => b.count ≤ a.count) ∧
    (locationStats coll).length = min 10 (locGroups coll).length ∧
    (∀ g ∈ locationStats coll, g ∈ locGroups coll) ∧
    (∀ g ∈ locGroups coll, g ∉ locationStats coll →
      ∀ h ∈ locationStats coll, g.count ≤ h.count) := by
  have hPW : (sortStable (fun y x => x.count < y.count)
      (locGroups coll)).Pairwise
      (fun a b : LocGroup => b.count ≤ a.count) := by
    apply sortStable_pairwise _ _ ?_ ?_ ?_
    · intro a b c hab hbc
      exact le_trans hbc hab
    · intro a b h
      simp only [decide_eq_true_eq] at h
      omega
    · intro a b h
      simp only [decide_eq_true_eq] at h
      omega
  refine ⟨?_, ?_, ?_, ?_⟩
  · exact List.Pairwise.sublist (List.take_sublist _ _) hPW
  · show ((sortStable (fun y x => x.count < y.count)
        (locGroups coll)).take 10).length = min 10 (locGroups coll).length
    rw [List.length_take, length_sortStable]
  · intro g hg
    have h1 : g ∈ sortStable (fun y x => x.count < y.count) (locGroups coll) :=
      List.mem_of_mem_take hg
    exact (mem_sortStable _ _ _).1 h1
  · intro g hg hgnot h hh
    simp only [locationStats] at hgnot hh
    have hg' : g ∈ (sortStable (fun y x => x.count < y.count)
          (locGroups coll)).take 10 ∨
        g ∈ (sortStable (fun y x => x.count < y.count)
          (locGroups coll)).drop 10 := by
      rw [← List.mem_append, List.take_append_drop]
      exact (mem_sortStable _ _ _).2 hg
    have hgd : g ∈ (sortStable (fun y x => x.count < y.count)
        (locGroups coll)).drop 10 := by
      rcases hg' with h1 | h1
      · exact absurd h1 hgnot
      · exact h1
    have hPW2 : ((sortStable (fun y x => x.count < y.count)
          (locGroups coll)).take 10 ++
        (sortStable (fun y x => x.count < y.count)
          (locGroups coll)).drop 10).Pairwise
        (fun a b : LocGroup => b.count ≤ a.count) := by
      rw [List.take_append_drop]
      exact hPW
    exact (List.pairwise_append.1 hPW2).2.2 h hh g hgd

/-- One group beyond the limit: on eleven equal-count location groups the
facet keeps exactly ten, the eleventh group (location "k") is excluded,
and its count does not exceed any included count. -/
theorem perLocation_top10_witness :
    (locationStats locTenColl).Pairwise (fun a b => b.count ≤ a.count) ∧
    (locationStats locTenColl).length = min 10 (locGroups locTenColl).length ∧
    (⟨"k", 1, avgQ [100]⟩ : LocGroup) ∈ locGroups locTenColl ∧
    (⟨"k", 1, avgQ [100]⟩ : LocGroup) ∉ locationStats locTenColl ∧
    (∀ h ∈ locationStats locTenColl,
      (⟨"k", 1, avgQ [100]⟩ : LocGroup).count ≤ h.count) :=
  have hmem : (⟨"k", 1, avgQ [100]⟩ : LocGroup) ∈ locGroups locTenColl :=
    (show (locGroups locTenColl).get ⟨10, by decide⟩ =
        ⟨"k", 1, avgQ [100]⟩ from rfl) ▸
      List.get_mem (locGroups locTenColl) 10 (by decide)
  ⟨(perLocation_top10 locTenColl).1,
   (perLocation_top10 locTenColl).2.1,
   hmem,
   by decide,
   (perLocation_top10 locTenColl).2.2.2 ⟨"k", 1, avgQ [100]⟩ hmem
     (by decide)⟩

/-! ## C10 — bulk import outcome partition -/

/-- Each loop iteration pushes the item into exactly one bucket. -/
theorem importStep_adds_one (cf : EstabDoc → Bool) (item : RawItem)
    (ln : Nat) (nid : String) (db : List EstabDoc) (acc : BatchResults) :
    bucketsTotal (importStep cf item ln nid db acc).1 =
      bucketsTotal acc + 1 := by
  simp only [importStep]
  split_ifs <;> simp [bucketsTotal] <;> omega

theorem importLoop_total (cf : EstabDoc → Bool) (nid : Nat → String) :
    ∀ (items : List RawItem) (ln : Nat) (db : List EstabDoc)
      (acc : BatchResults),
      bucketsTotal (importLoop cf nid items ln db acc).1 =
        bucketsTotal acc + items.length := by
  intro items
  induction items with
  | nil => intro ln db acc; rfl
  | cons item rest ih =>
      intro ln db acc
      show bucketsTotal
        (importLoop cf nid rest (ln + 1)
          (importStep cf item ln (nid ln) db acc).2
          (importStep cf item ln (nid ln) db acc).1).1 = _
      rw [ih (ln + 1) _ _, importStep_adds_one]
      simp only [List.length_cons]
      omega

/-- C10: for every bulk import whose payload is an array of at most 100
items, every item is assigned to exactly one outcome bucket, so the
returned summary satisfies
`imported + skipped + errors = total = number of submitted items`
(whatever the duplicate state of the collection and whichever inserts the
database rejects). -/
theorem importBatch_partition (cf : EstabDoc → Bool) (nid : Nat → String)
    (items : List RawItem) (db : List EstabDoc)
    (hsize : items.length ≤ 100) :
    ∃ s : ImportSummary,
      importEstablishmentsBatch cf nid items db = ImportResult.ok s ∧
      s.imported + s.skipped + s.errors = s.total ∧
      s.total = items.length := by
  rw [importEstablishmentsBatch, if_neg (by omega)]
  refine ⟨_, rfl, ?_, rfl⟩
  have h := importLoop_total cf nid items 1 db ⟨[], [], []⟩
  simp only [bucketsTotal, List.length_nil] at h
  simp only []
  omega

theorem importBatch_partition_witness :
    ∃ s : ImportSummary,
      importEstablishmentsBatch (fun _ => false) (fun n => toString n)
          c10Items [] = ImportResult.ok s ∧
      s.imported + s.skipped + s.errors = s.total ∧
      s.total = c10Items.length :=
  importBatch_partition (fun _ => false) (fun n => toString n)
    c10Items [] (by decide)

end EtudeSenegal
